import Mathlib

/-!
Shallow embedding of `surveyhelper/question.py` (the question/tabulation engine).

Conventions of the embedding:
* A missing cell (pandas `NaN`) is `none`; a present numeric cell is `some (x : ℚ)`.
* For a `SelectOneQuestion`, a dataset is represented by the question's answer
  column, `List (Option ℚ)` (the code only ever reads `df[self.variable]`).
* For a `SelectMultipleQuestion`, a dataset is a list of rows, each row holding
  the cells of the question's variables in order, `List (List (Option ℚ))`
  (the code reads `df[vars]`, a positional selection of those columns).
* A pandas `groupby` is a list of `(group key, group frame)` pairs in iteration
  order; `groupby.groups.keys()` is the list of the keys.
* `scipy.stats.ttest_ind` (with `equal_var=False`), `scipy.stats.f_oneway` and
  `scipy.stats.chisquare` are external collaborators: their p-values enter the
  embedding as function parameters (`ttp`, `anp`, `chisqp`).
* Python's `format(value, spec)` is likewise external and enters as a function
  parameter `pyfmt : String → Option ℚ → String` (`none` stands for `np.nan`).
* A raised Python exception is `Except.error` with a descriptive message.
-/

/-- Decidable equality for `Except` results, so that concrete runs of the
embedding (including raised errors) can be checked by evaluation. -/
instance {ε α : Type} [DecidableEq ε] [DecidableEq α] :
    DecidableEq (Except ε α) := fun x y =>
  match x, y with
  | .error a, .error b =>
    if h : a = b then .isTrue (by rw [h])
    else .isFalse (by intro hc; injection hc; contradiction)
  | .error _, .ok _ => .isFalse (by intro hc; injection hc)
  | .ok _, .error _ => .isFalse (by intro hc; injection hc)
  | .ok a, .ok b =>
    if h : a = b then .isTrue (by rw [h])
    else .isFalse (by intro hc; injection hc; contradiction)

/-- `itertools.compress(xs, selectors)`: keep `xs[i]` whenever `selectors[i]`
is true; iteration stops at the shorter of the two sequences. -/
def listCompress : List α → List Bool → List α
  | _, [] => []
  | [], _ => []
  | x :: xs, b :: bs => if b then x :: listCompress xs bs else listCompress xs bs

/-- A cell of one of the produced tables: either a string (labels, formatted
percentages, formatted means) or a raw integer count. -/
inductive Cell where
  | str : String → Cell
  | nat : Nat → Cell
  deriving DecidableEq, Repr

/-- The string pandas would render for a cell (used when a column of a table is
turned into an index by `set_index`). -/
def cellToStr : Cell → String
  | .str s => s
  | .nat n => toString n

/-- A single-question frequency table, stored column-major: `data[i]` is the
column named `cols[i]` (the code builds `data` as a list of columns and
transposes; `.iloc[:, 0]` is then `data[0]`). -/
structure FreqTable where
  cols : List String
  data : List (List Cell)
  deriving DecidableEq, Repr

/-- Python `zip(*rows)`: transpose truncated to the shortest row, `zip(*[]) = []`. -/
def zipStar : List (List α) → List (List α)
  | [] => []
  | [l] => l.map (fun a => [a])
  | l :: ls => List.zipWith (fun a r => a :: r) l (zipStar ls)

/-- Effectful map over a list in the `Except` monad, short-circuiting at the
first error (the behaviour of a Python `for` loop whose body may raise). -/
def mapME (f : α → Except ε β) : List α → Except ε (List β)
  | [] => .ok []
  | a :: l => do
    let b ← f a
    let bs ← mapME f l
    pure (b :: bs)

/-- `cols[:-1] + [cols[-1] + "*"]`: star the last label.  (Python raises
IndexError on an empty list; that corner is unreachable for the nonempty
column sets our theorems consider, and we return the list unchanged.) -/
def starLast (xs : List String) : List String :=
  match xs.getLast? with
  | none => xs
  | some l => xs.dropLast ++ [l ++ "*"]

/-- Dictionary lookup `mapping[k]` on an association list; a missing key is a
Python `KeyError`. -/
def lookupKey (glm : List (ℚ × String)) (k : ℚ) : Except String String :=
  match glm.find? (fun p => decide (p.1 = k)) with
  | some p => .ok p.2
  | none => .error "KeyError"

/-- `SelectOneQuestion.__init__`: display text, ordered choice labels, grouping
label, answer-variable name, numeric choice values and per-choice
excluded-from-analysis flags.  (The `matrix` back-reference carries no
behaviour and is omitted.) -/
structure SelectOneQuestion where
  text : String
  choices : List String
  label : String
  var : String
  values : List ℚ
  exclude_from_analysis : List Bool
  deriving DecidableEq, Repr

/-- `SelectOneQuestion.get_choices(remove_exclusions, show_values)`. -/
def SelectOneQuestion.get_choices (q : SelectOneQuestion)
    (remove_exclusions show_values : Bool) : List String :=
  let choices := if remove_exclusions then
      listCompress q.choices (q.exclude_from_analysis.map not) else q.choices
  let values := if remove_exclusions then
      listCompress q.values (q.exclude_from_analysis.map not) else q.values
  if show_values then
    if remove_exclusions then
      (choices.zip values).map (fun cv => s!"{cv.1} ({cv.2})")
    else
      (choices.zip (values.zip q.exclude_from_analysis)).map (fun cvx =>
        if cvx.2.2 then s!"{cvx.1} (X)" else s!"{cvx.1} ({cvx.2.1})")
  else choices

/-- `SelectOneQuestion.same_choices(other)`: same labels, same values, same
exclusion flags. -/
def SelectOneQuestion.same_choices (q o : SelectOneQuestion) : Bool :=
  decide (q.choices = o.choices ∧ q.values = o.values ∧
    q.exclude_from_analysis = o.exclude_from_analysis)

/-- `SelectOneQuestion.tally(df, remove_exclusions)`: per retained choice value,
the number of rows holding it (`value_counts` lookup, 0 when absent); then
`(cts, sum(cts), len(column) - sum(cts))`.  The last component is an integer
exactly as in Python (it may be negative only if `values` repeats a value). -/
def SelectOneQuestion.tally (q : SelectOneQuestion) (df : List (Option ℚ))
    (remove_exclusions : Bool) : List ℕ × ℕ × ℤ :=
  let values := if remove_exclusions then
      listCompress q.values (q.exclude_from_analysis.map not) else q.values
  let cts := values.map (fun k => df.countP (fun x => decide (x = some k)))
  (cts, cts.sum, (df.length : ℤ) - (cts.sum : ℤ))

/-- `SelectOneQuestion.mean(df, remove_exclusions)`: frequency-weighted sum of
the (post-exclusion) values divided by the respondent count; `none` models the
`np.nan` returned when there are zero respondents. -/
def SelectOneQuestion.mean (q : SelectOneQuestion) (df : List (Option ℚ))
    (remove_exclusions : Bool) : Option ℚ :=
  let values := if remove_exclusions then
      listCompress q.values (q.exclude_from_analysis.map not) else q.values
  let t := q.tally df remove_exclusions
  let num := ((t.1.zip values).map (fun cv => (cv.1 : ℚ) * cv.2)).sum
  if 0 < t.2.1 then some (num / (t.2.1 : ℚ)) else none

/-- `SelectOneQuestion.frequency_table(df, show_question, ct, pct, pct_format,
remove_exclusions, show_totals, show_mean, mean_format)`, column-major. -/
def SelectOneQuestion.frequency_table (pyfmt : String → Option ℚ → String)
    (q : SelectOneQuestion) (df : List (Option ℚ))
    (show_question ct pct : Bool) (pct_format : String)
    (remove_exclusions show_totals show_mean : Bool) (mean_format : String) :
    FreqTable :=
  let t := q.tally df remove_exclusions
  let cts := t.1
  let resp := t.2.1
  let answerCol := (q.get_choices remove_exclusions show_mean).map Cell.str
  let countCol := cts.map Cell.nat
  let pctCol := cts.map (fun x =>
    if 0 < resp then Cell.str (pyfmt pct_format (some ((x : ℚ) / (resp : ℚ))))
    else Cell.str "-")
  let meanCell := Cell.str (pyfmt mean_format (q.mean df remove_exclusions))
  let data := (if show_question then [answerCol] else []) ++
    (if ct then [countCol] else []) ++ (if pct then [pctCol] else [])
  let cols := (if show_question then ["Answer"] else []) ++
    (if ct then ["Count"] else []) ++ (if pct then ["%"] else [])
  let tots := (if show_question then [Cell.str "Total"] else []) ++
    (if ct then [Cell.nat resp] else []) ++
    (if pct then [Cell.str (pyfmt pct_format (some 1))] else [])
  let meanRow := (if show_question then [Cell.str "Mean"] else []) ++
    (if ct then [meanCell] else []) ++
    (if pct then [if ct then Cell.str "" else meanCell] else [])
  let data1 := if show_totals then List.zipWith (fun c x => c ++ [x]) data tots
    else data
  let data2 := if show_mean then List.zipWith (fun c x => c ++ [x]) data1 meanRow
    else data1
  ⟨cols, data2⟩

/-- `SelectOneQuestion.compare_groups(groupby, pval)`.  `ttp` stands for the
p-value of `scipy.stats.ttest_ind(a, b, equal_var=False)`, `anp` for that of
`scipy.stats.f_oneway(*data)`.  `data` is the list of missing-dropped columns,
one per group; `groupby.groups.keys()` is the list of group keys. -/
def SelectOneQuestion.compare_groups (ttp : List ℚ → List ℚ → ℚ)
    (anp : List (List ℚ) → ℚ) (q : SelectOneQuestion)
    (groupby : List (ℚ × List (Option ℚ))) (pval : ℚ) : Bool :=
  let data := groupby.map (fun g => g.2.filterMap id)
  if groupby.length = 2 then
    decide (ttp (data.getD 0 []) (data.getD 1 []) < pval)
  else if (groupby.map Prod.fst).length = 2 then
    decide (anp data < 5 / 100)
  else false

/-- The cross-tabulation table produced by `cut_by`: hierarchical row keys
`(axis label, group label)`, hierarchical column keys
`(question label, answer label)`, and the stacked per-group data rows. -/
structure CutTable where
  rowIndex : List (String × String)
  colIndex : List (String × String)
  data : List (List Cell)
  deriving DecidableEq, Repr

/-- The loop body of `SelectOneQuestion.cut_by(groups, group_label_mapping,
cut_var_label, question_label, pct_format, remove_exclusions, show_mean,
mean_format)`: per group, an Answer-indexed percent-only frequency table
becomes one row series named by the group's label (`KeyError` on an unmapped
key).  The result triple is (series name, series index, series values);
`pd.MultiIndex.from_arrays` in `cut_by` itself raises when the column label
arrays differ in length. -/
def cutBySeries (pyfmt : String → Option ℚ → String) (q : SelectOneQuestion)
    (group_label_mapping : List (ℚ × String)) (pct_format : String)
    (remove_exclusions show_mean : Bool) (mean_format : String)
    (g : ℚ × List (Option ℚ)) :
    Except String (String × List String × List Cell) := do
  let t := SelectOneQuestion.frequency_table pyfmt q g.2 true false true
    pct_format remove_exclusions false show_mean mean_format
  let name ← lookupKey group_label_mapping g.1
  pure (name, (t.data.getD 0 []).map cellToStr, t.data.getD 1 [])

/-- `SelectOneQuestion.cut_by`: stacks the per-group series, stars the last
column when `compare_groups` (at its default level .05) is significant, and
attaches the hierarchical indexes. -/
def SelectOneQuestion.cut_by (pyfmt : String → Option ℚ → String)
    (ttp : List ℚ → List ℚ → ℚ) (anp : List (List ℚ) → ℚ)
    (q : SelectOneQuestion) (groups : List (ℚ × List (Option ℚ)))
    (group_label_mapping : List (ℚ × String)) (cut_var_label : String)
    (question_label : Option String) (pct_format : String)
    (remove_exclusions show_mean : Bool) (mean_format : String) :
    Except String CutTable := do
  let freqs ← mapME (cutBySeries pyfmt q group_label_mapping pct_format
    remove_exclusions show_mean mean_format) groups
  let rowSub := freqs.map (fun f => f.1)
  let colsSub := (freqs.headD ("", [], [])).2.1
  let newcols := if show_mean &&
      SelectOneQuestion.compare_groups ttp anp q groups (5 / 100) then
    starLast colsSub else colsSub
  let my_label := question_label.getD q.text
  let rowTop := List.replicate groups.length cut_var_label
  let colTop := List.replicate q.choices.length my_label ++
    (if show_mean then [my_label] else [])
  if colTop.length = newcols.length then
    pure ⟨rowTop.zip rowSub, colTop.zip newcols, freqs.map (fun f => f.2.2)⟩
  else
    .error "ValueError: all arrays must be same length"

/-- `SelectOneQuestion.get_total_respondents(df)` (inherited from
`SelectQuestion`): the respondent count of `tally` at its default
`remove_exclusions=True`. -/
def SelectOneQuestion.get_total_respondents (q : SelectOneQuestion)
    (df : List (Option ℚ)) : ℕ :=
  (q.tally df true).2.1

/-- `SelectMultipleQuestion.__init__`: display text, ordered choice labels,
grouping label, one answer-variable name per choice, and per-choice
excluded-from-analysis flags. -/
structure SelectMultipleQuestion where
  text : String
  choices : List String
  label : String
  vars : List String
  exclude_from_analysis : List Bool
  deriving DecidableEq, Repr

/-- `SelectMultipleQuestion.get_choices(remove_exclusions)`. -/
def SelectMultipleQuestion.get_choices (q : SelectMultipleQuestion)
    (remove_exclusions : Bool) : List String :=
  if remove_exclusions then
    listCompress q.choices (q.exclude_from_analysis.map not)
  else q.choices

/-- `SelectMultipleQuestion.same_choices(other)`: same labels and same
exclusion flags (a multi-answer question has no `values`). -/
def SelectMultipleQuestion.same_choices (q o : SelectMultipleQuestion) : Bool :=
  decide (q.choices = o.choices ∧
    q.exclude_from_analysis = o.exclude_from_analysis)

/-- One iteration of the row loop of `SelectMultipleQuestion.tally` on a
respondent row: `cts[i] += 1` for every non-missing cell `row[i]`. -/
def tallyStep (cts : List ℕ) (row : List (Option ℚ)) : List ℕ :=
  List.zipWith (fun c v => if v.isSome then c + 1 else c) cts row

/-- The row loop of `SelectMultipleQuestion.tally`: a row with every retained
cell missing (`row.dropna().empty`) is a non-respondent; any other row is one
respondent and bumps the count of each of its non-missing cells. -/
def tallyLoop (cts : List ℕ) : List (List (Option ℚ)) → List ℕ × ℕ × ℕ
  | [] => (cts, 0, 0)
  | row :: rest =>
    if row.all Option.isNone then
      let r := tallyLoop cts rest
      (r.1, r.2.1, r.2.2 + 1)
    else
      let r := tallyLoop (tallyStep cts row) rest
      (r.1, r.2.1 + 1, r.2.2)

/-- `SelectMultipleQuestion.tally(df, remove_exclusions)`: select the retained
variables' columns (`df[vars]`, positional under the exclusion mask, assuming
the distinct variable names of the input contract), then run the row loop
starting from `[0]*len(vars)`. -/
def SelectMultipleQuestion.tally (q : SelectMultipleQuestion)
    (df : List (List (Option ℚ))) (remove_exclusions : Bool) :
    List ℕ × ℕ × ℕ :=
  let vars := if remove_exclusions then
      listCompress q.vars (q.exclude_from_analysis.map not)
    else q.vars
  let rows := if remove_exclusions then
      df.map (fun r => listCompress r (q.exclude_from_analysis.map not))
    else df
  tallyLoop (List.replicate vars.length 0) rows

/-- `SelectMultipleQuestion.get_total_respondents(df)` (inherited from
`SelectQuestion`): the respondent count of `tally` at its default
`remove_exclusions=True`. -/
def SelectMultipleQuestion.get_total_respondents (q : SelectMultipleQuestion)
    (df : List (List (Option ℚ))) : ℕ :=
  (q.tally df true).2.1

/-- `SelectMultipleQuestion.frequency_table(df, show_question, ct,
pct_respondents, pct_responses, pct_format, remove_exclusions, show_totals)`,
column-major.  (In the two percentage columns Python divides by `resp` resp.
`sum(cts)` without a zero guard and would raise `ZeroDivisionError` there; the
embedding's `ℚ` division returns 0 in that corner, which no theorem below
relies on.) -/
def SelectMultipleQuestion.frequency_table (pyfmt : String → Option ℚ → String)
    (q : SelectMultipleQuestion) (df : List (List (Option ℚ)))
    (show_question ct pct_respondents pct_responses : Bool)
    (pct_format : String) (remove_exclusions show_totals : Bool) : FreqTable :=
  let t := q.tally df remove_exclusions
  let cts := t.1
  let resp := t.2.1
  let answerCol := (q.get_choices remove_exclusions).map Cell.str
  let countCol := cts.map Cell.nat
  let pctRespondentsCol := cts.map (fun x =>
    Cell.str (pyfmt pct_format (some ((x : ℚ) / (resp : ℚ)))))
  let pctResponsesCol := cts.map (fun x =>
    Cell.str (pyfmt pct_format (some ((x : ℚ) / (cts.sum : ℚ)))))
  let data := (if show_question then [answerCol] else []) ++
    (if ct then [countCol] else []) ++
    (if pct_respondents then [pctRespondentsCol] else []) ++
    (if pct_responses then [pctResponsesCol] else [])
  let cols := (if show_question then ["Answer"] else []) ++
    (if ct then ["Count"] else []) ++
    (if pct_respondents then ["% of respondents"] else []) ++
    (if pct_responses then ["% of responses"] else [])
  let tots := (if show_question then [Cell.str "Total respondents"] else []) ++
    (if ct then [Cell.nat resp] else []) ++
    (if pct_respondents then [Cell.str ""] else []) ++
    (if pct_responses then [Cell.str ""] else [])
  let data1 := if show_totals then List.zipWith (fun c x => c ++ [x]) data tots
    else data
  ⟨cols, data1⟩

/-- `SelectMultipleQuestion.compare_groups(groupby, remove_exclusions, pval)`.
`chisqp f_obs f_exp` stands for the p-value of
`scipy.stats.chisquare(f_obs, f_exp)`.  Per retained choice: observed counts
across all groups against expected counts
`(choice total / total respondents) * group respondents`. -/
def SelectMultipleQuestion.compare_groups (chisqp : List ℕ → List ℚ → ℚ)
    (q : SelectMultipleQuestion)
    (groupby : List (ℚ × List (List (Option ℚ))))
    (remove_exclusions : Bool) (pval : ℚ) : List Bool :=
  let tallies := groupby.map (fun g => q.tally g.2 remove_exclusions)
  let obs_by_cut : List (List ℕ) := tallies.map (fun t => t.1)
  let ct_by_cut : List ℕ := tallies.map (fun t => t.2.1)
  let choice_totals : List ℕ := (zipStar obs_by_cut).map (fun x => x.sum)
  let exp_prop_per_choice : List ℚ := choice_totals.map
    (fun (t : ℕ) => (t : ℚ) / (ct_by_cut.sum : ℚ))
  ((zipStar obs_by_cut).zip exp_prop_per_choice).map (fun fp =>
    let f_exp : List ℚ := ct_by_cut.map (fun (ct : ℕ) => fp.2 * (ct : ℚ))
    decide (chisqp fp.1 f_exp < pval))

/-- The closed set of concrete question variants (`type(x)` in Python). -/
inductive Question where
  | one : SelectOneQuestion → Question
  | multi : SelectMultipleQuestion → Question
  deriving DecidableEq, Repr

/-- `type(x) == type(y)` for two questions. -/
def Question.sameType : Question → Question → Bool
  | .one _, .one _ => true
  | .multi _, .multi _ => true
  | _, _ => false

/-- `x.same_choices(y)`, dispatched on the variant.  (A cross-variant call is
unreachable in `MatrixQuestion.__init__`, which checks types first; Python
would raise an AttributeError there, and the embedding returns `false`.) -/
def Question.same_choices : Question → Question → Bool
  | .one x, .one o => x.same_choices o
  | .multi x, .multi o => x.same_choices o
  | _, _ => false

/-- `x.get_choices(...)`, dispatched on the variant (the multi-answer variant
takes no `show_values` argument and ignores it). -/
def Question.get_choices : Question → Bool → Bool → List String
  | .one q, re, sv => q.get_choices re sv
  | .multi q, re, _ => q.get_choices re

/-- `MatrixQuestion.assert_questions_same_type`: every child has the type of
the first child (vacuously true of an empty child list, whose generator never
evaluates `questions[0]`). -/
def questionsSameType : List Question → Bool
  | [] => true
  | q0 :: rest => (q0 :: rest).all (fun x => x.sameType q0)

/-- `MatrixQuestion.assert_choices_same`: every child reports `same_choices`
against the first child. -/
def questionsChoicesSame : List Question → Bool
  | [] => true
  | q0 :: rest => (q0 :: rest).all (fun x => x.same_choices q0)

/-- `MatrixQuestion`: display text, grouping label and the ordered child list
(the `matrix` back-references assigned to the children carry no behaviour). -/
structure MatrixQuestion where
  text : String
  label : String
  questions : List Question
  deriving DecidableEq, Repr

/-- `MatrixQuestion.__init__(text, label, questions)`: validates that all
children share one concrete type, then that all children share one choice set,
raising the corresponding message otherwise. -/
def mkMatrix (text label : String) (questions : List Question) :
    Except String MatrixQuestion :=
  if questionsSameType questions then
    if questionsChoicesSame questions then
      .ok ⟨text, label, questions⟩
    else .error "Questions in a matrix must all have the same choices"
  else .error "Questions in a matrix must all have the same type"

/-- `SelectOneMatrixQuestion.get_choices(remove_exclusions, show_values)`:
re-asserts the shared choice set, then delegates to `questions[0]`
(an empty child list would raise IndexError). -/
def MatrixQuestion.get_choices (m : MatrixQuestion)
    (remove_exclusions show_values : Bool) : Except String (List String) :=
  if questionsChoicesSame m.questions then
    match m.questions with
    | [] => .error "IndexError: list index out of range"
    | q :: _ => .ok (q.get_choices remove_exclusions show_values)
  else .error "Questions in a matrix must all have the same choices"

/-- A matrix frequency table, row-major: one row per child question. -/
structure MatrixTable where
  cols : List String
  rows : List (List Cell)
  deriving DecidableEq, Repr

/-- `SelectMultipleMatrixQuestion`: a matrix whose children are multi-answer
questions (validated at construction by `MatrixQuestion.__init__`). -/
structure SelectMultipleMatrixQuestion where
  text : String
  label : String
  questions : List SelectMultipleQuestion
  deriving DecidableEq, Repr

/-- `SelectMultipleMatrixQuestion.get_choices(remove_exclusions)`. -/
def SelectMultipleMatrixQuestion.get_choices
    (m : SelectMultipleMatrixQuestion) (remove_exclusions : Bool) :
    Except String (List String) :=
  if m.questions.all (fun x => x.same_choices (m.questions.headD x)) then
    match m.questions with
    | [] => .error "IndexError: list index out of range"
    | q :: _ => .ok (q.get_choices remove_exclusions)
  else .error "Questions in a matrix must all have the same choices"

/-- `SelectMultipleMatrixQuestion.frequency_table(df, show, pct_format,
remove_exclusions, show_totals)`.  The `"ct"` branch stacks each child's
count-only slice (`.iloc[:, 0]` of the child's table).  The
`"pct_respondents"` and `"pct_responses"` branches iterate `self.responses`,
an attribute no code ever assigns, so Python raises an AttributeError before
producing anything.  An unrecognized mode raises naming the bad value
(Python's message quotes the word show: `Invalid 'show' parameter: ...`). -/
def SelectMultipleMatrixQuestion.frequency_table
    (pyfmt : String → Option ℚ → String) (m : SelectMultipleMatrixQuestion)
    (df : List (List (Option ℚ))) (showArg : String) (pct_format : String)
    (remove_exclusions show_totals : Bool) : Except String MatrixTable := do
  let data ←
    if showArg = "ct" then
      pure (m.questions.map (fun q =>
        (SelectMultipleQuestion.frequency_table pyfmt q df false true false
          false pct_format remove_exclusions false).data.getD 0 []))
    else if showArg = "pct_respondents" then
      .error "AttributeError: SelectMultipleMatrixQuestion object has no attribute responses"
    else if showArg = "pct_responses" then
      .error "AttributeError: SelectMultipleMatrixQuestion object has no attribute responses"
    else
      .error s!"Invalid show parameter: {showArg}"
  let choiceCols ← m.get_choices remove_exclusions
  let cols := "Question" :: choiceCols
  let rows := List.zipWith
    (fun (q : SelectMultipleQuestion) d => Cell.str q.text :: d)
    m.questions data
  if show_totals then
    pure ⟨cols ++ ["Total Respondents"],
      List.zipWith (fun r (q : SelectMultipleQuestion) =>
        r ++ [Cell.nat (q.get_total_respondents df)]) rows m.questions⟩
  else
    pure ⟨cols, rows⟩

/-! Concrete instantiations of the external collaborators, used to evaluate the
embedding at concrete inputs: a formatter that renders every value as the empty
string, and constant p-value functions. -/

/-- A concrete stand-in for Python's `format`: every value renders as `""`. -/
def pyfmt0 : String → Option ℚ → String := fun _ _ => ""

/-- A concrete t-test p-value function, constantly 1 (never significant). -/
def tt0 : List ℚ → List ℚ → ℚ := fun _ _ => 1

/-- A concrete ANOVA p-value function, constantly 0 (always significant, as
`scipy.stats.f_oneway` reports on strongly separated groups). -/
def an0 : List (List ℚ) → ℚ := fun _ => 0

/-- A concrete chi-square p-value function, constantly 0 (always significant). -/
def chisq0 : List ℕ → List ℚ → ℚ := fun _ _ => 0

/-- A 4-choice single-answer question whose third choice is excluded from
analysis ("Don't know"), used to exercise exclusion handling. -/
def qC4 : SelectOneQuestion :=
  ⟨"Favorite color?", ["Red", "Blue", "Dont know"], "color", "q_color",
    [1, 2, 3], [false, false, true]⟩

/-- A one-row dataset holding only the excluded choice's value. -/
def dfC4 : List (Option ℚ) := [some 3]

/-- A 3-group split for the single-answer comparison whose raw values take
exactly 2 distinct values (1 and 2) overall, with groups separated strongly
enough that `scipy.stats.f_oneway` on this data reports p ≈ 3e-4 < .05. -/
def gC2 : List (ℚ × List (Option ℚ)) :=
  [(10, [some 1, some 1, some 1, some 1, some 1, some 1, some 1, some 2]),
   (20, [some 2, some 2, some 2, some 2, some 2, some 2, some 2, some 1]),
   (30, [some 1, some 1, some 1, some 1, some 1, some 1, some 1, some 2])]

/-- The question the `gC2` split compares. -/
def qC2 : SelectOneQuestion :=
  ⟨"Agree?", ["Yes", "No"], "agree", "q_agree", [1, 2], [false, false]⟩

/-- The spec's multi-answer example: two choice-variables `["A", "B"]`. -/
def qC3 : SelectMultipleQuestion :=
  ⟨"Which apply?", ["A", "B"], "which", ["A", "B"], [false, false]⟩

/-- The spec's multi-answer example rows
`[{A:1, B:NA}, {A:NA, B:NA}, {A:1, B:1}]`. -/
def dfC3 : List (List (Option ℚ)) :=
  [[some 1, none], [none, none], [some 1, some 1]]

/-- A two-choice multi-answer question for the goodness-of-fit witness. -/
def qC5 : SelectMultipleQuestion :=
  ⟨"Own which?", ["Car", "Bike"], "own", ["own_car", "own_bike"],
    [false, false]⟩

/-- A 2-group split of `qC5` data with a respondent in each group. -/
def gC5 : List (ℚ × List (List (Option ℚ))) :=
  [(1, [[some 1, none], [some 1, some 1]]),
   (2, [[none, some 1], [none, none]])]

/-- A single-answer child question for matrix-construction tests. -/
def qC6a : Question :=
  .one ⟨"Row one", ["Low", "High"], "r1", "q_r1", [1, 2], [false, false]⟩

/-- A second single-answer child with the same choice set as `qC6a` but
different text and variable. -/
def qC6b : Question :=
  .one ⟨"Row two", ["Low", "High"], "r2", "q_r2", [1, 2], [false, false]⟩

/-- A child whose choice values differ from `qC6a`'s. -/
def qC6c : Question :=
  .one ⟨"Row three", ["Low", "High"], "r3", "q_r3", [1, 3], [false, false]⟩

/-- A homogeneous child list for a well-formed matrix. -/
def qsC6 : List Question := [qC6a, qC6b]

/-- A multi-answer matrix with two structurally identical children. -/
def mC7 : SelectMultipleMatrixQuestion :=
  ⟨"Grid", "grid",
    [⟨"Row one", ["A", "B"], "g1", ["g1_a", "g1_b"], [false, false]⟩,
     ⟨"Row two", ["A", "B"], "g2", ["g2_a", "g2_b"], [false, false]⟩]⟩

/-- Rows for `mC7`: the columns of both children's variables in order. -/
def dfC7 : List (List (Option ℚ)) :=
  [[some 1, none], [some 1, some 1]]

/-- The spec's single-answer example question: choices
`[("Yes", 1, False), ("No", 2, False)]`. -/
def qC8 : SelectOneQuestion :=
  ⟨"Yes or no?", ["Yes", "No"], "yn", "q_yn", [1, 2], [false, false]⟩

/-- The spec's single-answer example data `[1, 1, 2, NA]`. -/
def dfC8 : List (Option ℚ) := [some 1, some 1, some 2, none]

/-- A 2-group split of `qC8`'s column for the cross-tabulation witness. -/
def gC9 : List (ℚ × List (Option ℚ)) :=
  [(1, [some 1, some 2]), (2, [some 2, some 2])]

/-- Group labels for `gC9`. -/
def glmC9 : List (ℚ × String) := [(1, "North"), (2, "South")]

/-- A one-child multi-answer matrix for the total-respondents witness. -/
def mC10 : SelectMultipleMatrixQuestion :=
  ⟨"Grid", "grid", [⟨"Row one", ["A"], "g1", ["g1_a"], [false]⟩]⟩

/-- Rows for `mC10`: one respondent, one non-respondent. -/
def dfC10 : List (List (Option ℚ)) := [[some 1], [none]]

/-! Helper lemmas about the embedding's list combinators. -/

/-- `listCompress` produces lists of equal length from lists of equal length. -/
theorem listCompress_length_congr :
    ∀ (bs : List Bool) (xs : List α) (ys : List β), xs.length = ys.length →
      (listCompress xs bs).length = (listCompress ys bs).length := by
  intro bs
  induction bs with
  | nil => intro xs ys _; simp [listCompress]
  | cons b bs ih =>
    intro xs ys h
    cases xs with
    | nil => cases ys with
      | nil => rfl
      | cons y ys => simp at h
    | cons x xs => cases ys with
      | nil => simp at h
      | cons y ys =>
        simp at h
        by_cases hb : b <;> simp [listCompress, hb, ih xs ys h]

/-- A row all of whose cells are missing has a missing cell at every index. -/
theorem allNone_getD {r : List (Option ℚ)} (h : r.all Option.isNone = true)
    (i : ℕ) : (r[i]?).getD none = none := by
  rcases h2 : r[i]? with _ | v
  · simp [h2]
  · have hv : v ∈ r := by
      rcases List.getElem?_eq_some_iff.mp h2 with ⟨hlt, hEq⟩
      exact hEq ▸ List.getElem_mem hlt
    have hn := List.all_eq_true.mp h v hv
    simp only [h2, Option.getD_some]
    exact Option.isNone_iff_eq_none.mp hn

/-- One `tallyStep` bumps exactly the positions whose cell is present. -/
theorem tallyStep_getD :
    ∀ (cts : List ℕ) (row : List (Option ℚ)) (i : ℕ),
      row.length = cts.length →
      (tallyStep cts row).getD i 0 =
        cts.getD i 0 + (if (row.getD i none).isSome then 1 else 0) := by
  intro cts
  induction cts with
  | nil =>
    intro row i h
    rw [List.length_eq_zero.mp h]
    simp [tallyStep]
  | cons c cts ih =>
    intro row i h
    cases row with
    | nil => simp at h
    | cons v row =>
      simp at h
      cases i with
      | zero => by_cases hv : v.isSome <;> simp [tallyStep, hv]
      | succ j => simpa [tallyStep] using ih row j h

/-- `tallyStep` keeps the accumulator's length when the row has that length. -/
theorem tallyStep_length (cts : List ℕ) (row : List (Option ℚ))
    (h : row.length = cts.length) : (tallyStep cts row).length = cts.length := by
  simp [tallyStep, h]

/-- The respondent and non-respondent counters of the row loop count the rows
with some present cell and the all-missing rows, respectively. -/
theorem tallyLoop_counts (rows : List (List (Option ℚ))) :
    ∀ cts, (tallyLoop cts rows).2.1 =
        rows.countP (fun r => !(r.all Option.isNone)) ∧
      (tallyLoop cts rows).2.2 = rows.countP (fun r => r.all Option.isNone) := by
  induction rows with
  | nil => intro cts; simp [tallyLoop]
  | cons r rest ih =>
    intro cts
    by_cases h : r.all Option.isNone <;>
      simp [tallyLoop, h, List.countP_cons, ih]

/-- The row loop keeps the length of the count accumulator. -/
theorem tallyLoop_length (rows : List (List (Option ℚ))) :
    ∀ cts, (∀ r ∈ rows, r.length = cts.length) →
      (tallyLoop cts rows).1.length = cts.length := by
  induction rows with
  | nil => intro cts _; simp [tallyLoop]
  | cons r rest ih =>
    intro cts h
    have hr : r.length = cts.length := h r (by simp)
    have hrest : ∀ x ∈ rest, x.length = cts.length := fun x hx => h x (by simp [hx])
    by_cases hall : r.all Option.isNone
    · simpa [tallyLoop, hall] using ih cts hrest
    · have : ∀ x ∈ rest, x.length = (tallyStep cts r).length := by
        intro x hx; rw [tallyStep_length cts r hr]; exact hrest x hx
      simpa [tallyLoop, hall, tallyStep_length cts r hr] using ih (tallyStep cts r) this

/-- Each final count of the row loop is its initial value plus the number of
rows whose cell at that index is present. -/
theorem tallyLoop_getD (rows : List (List (Option ℚ))) :
    ∀ cts i, (∀ r ∈ rows, r.length = cts.length) →
      (tallyLoop cts rows).1.getD i 0 =
        cts.getD i 0 + rows.countP (fun r => (r.getD i none).isSome) := by
  induction rows with
  | nil => intro cts i _; simp [tallyLoop]
  | cons r rest ih =>
    intro cts i h
    have hr : r.length = cts.length := h r (by simp)
    have hrest : ∀ x ∈ rest, x.length = cts.length := fun x hx => h x (by simp [hx])
    by_cases hall : r.all Option.isNone
    · rw [show (tallyLoop cts (r :: rest)).1 = (tallyLoop cts rest).1 by
        simp [tallyLoop, hall]]
      rw [ih cts i hrest, List.countP_cons]
      simp [allNone_getD hall]
    · rw [show (tallyLoop cts (r :: rest)).1 = (tallyLoop (tallyStep cts r) rest).1 by
        simp [tallyLoop, hall]]
      have hrest2 : ∀ x ∈ rest, x.length = (tallyStep cts r).length := by
        intro x hx; rw [tallyStep_length cts r hr]; exact hrest x hx
      rw [ih (tallyStep cts r) i hrest2, tallyStep_getD cts r i hr, List.countP_cons]
      by_cases hv : (r.getD i none).isSome <;> simp [hv] <;> omega

/-! Theorems for the claims. -/

/-- Claim C1: for a single-answer question and remove_exclusions=False, the
per-choice counts follow the question's choice values in order, the respondent
count is the sum of the per-choice counts, and that sum plus the
non-respondent count equals the number of rows. -/
theorem selectOne_tally_conservation (q : SelectOneQuestion)
    (df : List (Option ℚ)) :
    (q.tally df false).1 =
      q.values.map (fun v => df.countP (fun x => decide (x = some v))) ∧
    (q.tally df false).2.1 = (q.tally df false).1.sum ∧
    ((q.tally df false).1.sum : ℤ) + (q.tally df false).2.2 = (df.length : ℤ) := by
  refine ⟨rfl, rfl, ?_⟩
  simp [SelectOneQuestion.tally]

/-- Claim C4 counterexample: a row holding the excluded choice's value (3) is
counted as a non-respondent by `tally(df, remove_exclusions=True)` (respondents
0, non-respondents 1), although the row's cell is present. -/
theorem selectOne_tally_excluded_row_cex :
    (qC4.tally dfC4 true).2.1 = 0 ∧ (qC4.tally dfC4 true).2.2 = 1 ∧
    dfC4.countP (fun x => x.isSome) = 1 := by decide

/-- Claim C4 (amended): under remove_exclusions=True the per-choice counts
cover exactly the retained choice values in order (a retained value absent
from the data yielding count 0, never an error), the respondent count is the
sum of those retained counts (so a row holding an excluded choice's value
counts as a non-respondent), and the non-respondent count is the total row
count of the entire column minus that sum. -/
theorem selectOne_tally_exclusion_spec (q : SelectOneQuestion)
    (df : List (Option ℚ)) :
    (q.tally df true).1 =
      (listCompress q.values (q.exclude_from_analysis.map not)).map
        (fun v => df.countP (fun x => decide (x = some v))) ∧
    (q.tally df true).2.1 = (q.tally df true).1.sum ∧
    (((q.tally df true).1.sum : ℤ) + (q.tally df true).2.2 = (df.length : ℤ)) ∧
    (∀ v ∈ listCompress q.values (q.exclude_from_analysis.map not),
      (some v) ∉ df → df.countP (fun x => decide (x = some v)) = 0) := by
  refine ⟨rfl, rfl, by simp [SelectOneQuestion.tally], ?_⟩
  intro v _ hnot
  rw [List.countP_eq_zero]
  intro x hx
  simp only [decide_eq_true_eq]
  intro hxv
  exact hnot (hxv ▸ hx)

/-- Claim C4 witness: evaluating the amended claim at the concrete excluded-row
dataset: counts cover only the retained values, and the retained value 1,
absent from the data, yields count 0. -/
theorem selectOne_tally_exclusion_spec_witness :
    (qC4.tally dfC4 true).1 =
      (listCompress qC4.values (qC4.exclude_from_analysis.map not)).map
        (fun v => dfC4.countP (fun x => decide (x = some v))) ∧
    dfC4.countP (fun x => decide (x = some (1 : ℚ))) = 0 :=
  ⟨(selectOne_tally_exclusion_spec qC4 dfC4).1,
   (selectOne_tally_exclusion_spec qC4 dfC4).2.2.2 1 (by decide) (by decide)⟩

/-- Claim C8: `mean` returns the not-a-number sentinel exactly when there are
zero respondents (never raising, never dividing by zero), and with positive
respondents returns the frequency-weighted sum of the post-exclusion values
divided by the respondent count. -/
theorem selectOne_mean_spec (q : SelectOneQuestion) (df : List (Option ℚ))
    (re : Bool) :
    (q.mean df re = none ↔ (q.tally df re).2.1 = 0) ∧
    (0 < (q.tally df re).2.1 →
      q.mean df re = some
        ((((q.tally df re).1.zip (if re then
            listCompress q.values (q.exclude_from_analysis.map not)
          else q.values)).map (fun cv => (cv.1 : ℚ) * cv.2)).sum /
          ((q.tally df re).2.1 : ℚ))) := by
  by_cases h : 0 < (q.tally df re).2.1
  · constructor
    · simp [SelectOneQuestion.mean, h]
      omega
    · intro _
      simp [SelectOneQuestion.mean, h]
  · have h0 : (q.tally df re).2.1 = 0 := by omega
    constructor
    · simp [SelectOneQuestion.mean, h, h0]
    · intro hc; omega

/-- Claim C8 witness: the spec's example, data `[1, 1, 2, NA]` on values
`[1, 2]`, has 3 respondents and mean `4/3`. -/
theorem selectOne_mean_spec_witness :
    (0 < (qC8.tally dfC8 true).2.1) ∧ qC8.mean dfC8 true = some (4 / 3) := by
  refine ⟨by decide, ?_⟩
  have h := (selectOne_mean_spec qC8 dfC8 true).2 (by decide)
  rw [h]
  norm_num [qC8, dfC8, SelectOneQuestion.tally, listCompress,
    List.countP_cons, List.countP_nil,
    show (none = some (1 : ℚ)) = False by simp,
    show (none = some (2 : ℚ)) = False by simp]

/-- Claim C3: the multi-answer tally counts, per retained choice variable, the
rows whose cell there is present; a row is a non-respondent exactly when all
its retained cells are missing, and every other row is exactly one respondent
however many cells it has present; on the spec's example it returns
`([2, 1], 2, 1)`. -/
theorem selectMultiple_tally_spec (q : SelectMultipleQuestion)
    (df : List (List (Option ℚ))) (re : Bool)
    (hr : ∀ r ∈ df, r.length = q.vars.length) :
    ((q.tally df re).2.1 = df.countP (fun r =>
      !((if re then listCompress r (q.exclude_from_analysis.map not)
        else r).all Option.isNone))) ∧
    ((q.tally df re).2.2 = df.countP (fun r =>
      (if re then listCompress r (q.exclude_from_analysis.map not)
        else r).all Option.isNone)) ∧
    ((q.tally df re).1.length = (if re then
      listCompress q.vars (q.exclude_from_analysis.map not)
      else q.vars).length) ∧
    (∀ i, (q.tally df re).1.getD i 0 = df.countP (fun r =>
      ((if re then listCompress r (q.exclude_from_analysis.map not)
        else r).getD i none).isSome)) ∧
    qC3.tally dfC3 true = ([2, 1], 2, 1) := by
  have hfin : qC3.tally dfC3 true = ([2, 1], 2, 1) := by decide
  cases re with
  | false =>
    have hif : ∀ {α : Type} (a b : α), (if (false : Bool) = true then a else b) = b :=
      fun _ _ => rfl
    simp only [hif]
    have hlen : ∀ r ∈ df, r.length = (List.replicate q.vars.length 0).length := by
      simpa using hr
    refine ⟨?_, ?_, ?_, ?_, hfin⟩
    · simpa [SelectMultipleQuestion.tally] using (tallyLoop_counts df _).1
    · simpa [SelectMultipleQuestion.tally] using (tallyLoop_counts df _).2
    · simpa [SelectMultipleQuestion.tally] using tallyLoop_length df _ hlen
    · intro i
      simpa [SelectMultipleQuestion.tally] using tallyLoop_getD df _ i hlen
  | true =>
    simp only [if_pos rfl]
    have hlen : ∀ r ∈ df.map (fun r =>
        listCompress r (q.exclude_from_analysis.map not)),
        r.length = (List.replicate
          (listCompress q.vars (q.exclude_from_analysis.map not)).length
          0).length := by
      simp only [List.mem_map, List.length_replicate]
      rintro _ ⟨r, hrm, rfl⟩
      exact listCompress_length_congr _ r q.vars (hr r hrm)
    refine ⟨?_, ?_, ?_, ?_, hfin⟩
    · rw [show (q.tally df true).2.1 = (tallyLoop _ (df.map (fun r =>
        listCompress r (q.exclude_from_analysis.map not)))).2.1 from rfl]
      rw [(tallyLoop_counts _ _).1, List.countP_map]
      rfl
    · rw [show (q.tally df true).2.2 = (tallyLoop _ (df.map (fun r =>
        listCompress r (q.exclude_from_analysis.map not)))).2.2 from rfl]
      rw [(tallyLoop_counts _ _).2, List.countP_map]
      rfl
    · simpa [SelectMultipleQuestion.tally] using tallyLoop_length _ _ hlen
    · intro i
      rw [show (q.tally df true).1 = (tallyLoop (List.replicate
        (listCompress q.vars (q.exclude_from_analysis.map not)).length 0)
        (df.map (fun r =>
          listCompress r (q.exclude_from_analysis.map not)))).1 from rfl]
      rw [tallyLoop_getD _ _ i hlen, List.countP_map]
      simp
      rfl

/-- Claim C3 witness: the spec's example evaluated through the theorem — with
rows `[{A:1,B:NA},{A:NA,B:NA},{A:1,B:1}]` the tally is `([2, 1], 2, 1)`. -/
theorem selectMultiple_tally_spec_witness :
    qC3.tally dfC3 true = ([2, 1], 2, 1) :=
  (selectMultiple_tally_spec qC3 dfC3 true (by decide)).2.2.2.2

/-- Claim C2 counterexample: a 3-group split whose raw values take exactly 2
distinct values overall and whose omnibus p-value is below .05 (both for the
constant oracle `an0` used here and for `scipy.stats.f_oneway` on this data,
p ≈ 3e-4): the claim's degenerate clause predicts the ANOVA runs and the call
returns true, but the code returns false. -/
theorem selectOne_compare_groups_anova_cex :
    gC2.length > 2 ∧
    (gC2.map (fun g => g.2.filterMap id)).flatten.dedup.length = 2 ∧
    an0 (gC2.map (fun g => g.2.filterMap id)) < 5 / 100 ∧
    SelectOneQuestion.compare_groups tt0 an0 qC2 gC2 (5 / 100) = false := by
  refine ⟨by decide, by decide, ?_, by decide⟩
  norm_num [an0]

/-- Claim C2 (amended): compare_groups runs the unequal-variance two-sample
t-test on the groups' missing-dropped raw values exactly when there are
exactly 2 groups, returning true iff p < pval; in every other case it returns
false without running any test.  The ANOVA guard
`len(groupby.groups.keys()) == 2` counts the group keys and so coincides with
the first guard `len(groupby) == 2`: the ANOVA branch is unreachable. -/
theorem selectOne_compare_groups_dispatch (ttp : List ℚ → List ℚ → ℚ)
    (anp : List (List ℚ) → ℚ) (q : SelectOneQuestion)
    (groupby : List (ℚ × List (Option ℚ))) (pval : ℚ) :
    SelectOneQuestion.compare_groups ttp anp q groupby pval =
      if groupby.length = 2 then
        decide (ttp ((groupby.map (fun g => g.2.filterMap id)).getD 0 [])
          ((groupby.map (fun g => g.2.filterMap id)).getD 1 []) < pval)
      else false := by
  unfold SelectOneQuestion.compare_groups
  by_cases h : groupby.length = 2
  · simp [h]
  · simp [h]

/-- If a child reports `same_choices` against another, the two return the same
`get_choices` for every argument pair. -/
theorem same_choices_get_choices {x q0 : Question}
    (h : Question.same_choices x q0 = true) (re sv : Bool) :
    Question.get_choices x re sv = Question.get_choices q0 re sv := by
  cases x with
  | one a =>
    cases q0 with
    | one b =>
      simp only [Question.same_choices, SelectOneQuestion.same_choices,
        decide_eq_true_eq] at h
      obtain ⟨h1, h2, h3⟩ := h
      simp [Question.get_choices, SelectOneQuestion.get_choices, h1, h2, h3]
    | multi b => simp [Question.same_choices] at h
  | multi a =>
    cases q0 with
    | one b => simp [Question.same_choices] at h
    | multi b =>
      simp only [Question.same_choices, SelectMultipleQuestion.same_choices,
        decide_eq_true_eq] at h
      obtain ⟨h1, h2⟩ := h
      simp [Question.get_choices, SelectMultipleQuestion.get_choices, h1, h2]

/-- Claim C6: matrix construction checks that all children share one concrete
type and then that all children share one choice set, failing immediately with
the message naming the broken invariant; on success the constructed matrix
holds the child list and its `get_choices` agrees with every child's
`get_choices`. -/
theorem matrix_construction_validation_spec (text label : String)
    (qs : List Question) :
    (questionsSameType qs = false →
      mkMatrix text label qs =
        .error "Questions in a matrix must all have the same type") ∧
    (questionsSameType qs = true → questionsChoicesSame qs = false →
      mkMatrix text label qs =
        .error "Questions in a matrix must all have the same choices") ∧
    (∀ m, mkMatrix text label qs = .ok m → m.questions = qs ∧
      ∀ q ∈ qs, ∀ re sv,
        m.get_choices re sv = .ok (q.get_choices re sv)) := by
  refine ⟨?_, ?_, ?_⟩
  · intro h
    simp [mkMatrix, h]
  · intro h1 h2
    simp [mkMatrix, h1, h2]
  · intro m hm
    by_cases h1 : questionsSameType qs
    · by_cases h2 : questionsChoicesSame qs
      · simp only [mkMatrix, h1, h2, if_true] at hm
        have hm2 := Except.ok.inj hm
        subst hm2
        refine ⟨rfl, ?_⟩
        intro q hq re sv
        match hqs : qs, hq with
        | q0 :: rest, hq =>
          have hall : ∀ x ∈ q0 :: rest, Question.same_choices x q0 = true := by
            have := h2
            simpa [questionsChoicesSame, List.all_eq_true] using this
          simp only [MatrixQuestion.get_choices, h2, if_true]
          exact congrArg Except.ok (same_choices_get_choices (hall q hq) re sv).symm
      · simp [mkMatrix, h1, h2] at hm
    · simp [mkMatrix, h1] at hm

/-- Claim C6 witness: two identical-choice single-answer children construct
successfully and the matrix's choices equal the second child's. -/
theorem matrix_construction_validation_spec_witness :
    mkMatrix "T" "L" qsC6 = .ok ⟨"T", "L", qsC6⟩ ∧
    MatrixQuestion.get_choices ⟨"T", "L", qsC6⟩ true false =
      .ok (Question.get_choices qC6b true false) ∧
    mkMatrix "T" "L" [qC6a, qC6c] =
      .error "Questions in a matrix must all have the same choices" :=
  ⟨by decide,
   ((matrix_construction_validation_spec "T" "L" qsC6).2.2 ⟨"T", "L", qsC6⟩
      (by decide)).2 qC6b (by decide) true false,
   (matrix_construction_validation_spec "T" "L" [qC6a, qC6c]).2
      |>.1 (by decide) (by decide)⟩

/-- Claim C7 (code defect): on a multi-answer matrix the documented modes
pct_respondents and pct_responses crash with an AttributeError (the loop
iterates `self.responses`, which no code assigns; the ct branch shows the
intended `self.questions`), an unrecognized mode fails naming the bad value,
and the ct mode succeeds stacking the children's count slices under the shared
choice labels with the children's display texts. -/
theorem multiMatrix_frequency_table_responses_bug :
    SelectMultipleMatrixQuestion.frequency_table pyfmt0 mC7 dfC7
      "pct_respondents" ".0%" true true =
      .error "AttributeError: SelectMultipleMatrixQuestion object has no attribute responses" ∧
    SelectMultipleMatrixQuestion.frequency_table pyfmt0 mC7 dfC7
      "pct_responses" ".0%" true true =
      .error "AttributeError: SelectMultipleMatrixQuestion object has no attribute responses" ∧
    SelectMultipleMatrixQuestion.frequency_table pyfmt0 mC7 dfC7
      "bogus" ".0%" true true = .error "Invalid show parameter: bogus" ∧
    SelectMultipleMatrixQuestion.frequency_table pyfmt0 mC7 dfC7
      "ct" ".0%" true true =
      .ok ⟨["Question", "A", "B", "Total Respondents"],
        [[Cell.str "Row one", Cell.nat 2, Cell.nat 1, Cell.nat 2],
         [Cell.str "Row two", Cell.nat 2, Cell.nat 1, Cell.nat 2]]⟩ := by
  refine ⟨by decide, by decide, by decide, by decide⟩

/-- Claim C10: for both question variants `get_total_respondents` is the
respondent count of `tally` with exclusions removed, and on a multi-answer
matrix's ct table (whatever `remove_exclusions` the table itself was built
with) the trailing "Total Respondents" column holds exactly those
exclusion-removed per-child respondent counts. -/
theorem get_total_respondents_spec :
    (∀ (q : SelectOneQuestion) (df : List (Option ℚ)),
      q.get_total_respondents df = (q.tally df true).2.1) ∧
    (∀ (q : SelectMultipleQuestion) (df : List (List (Option ℚ))),
      q.get_total_respondents df = (q.tally df true).2.1) ∧
    (∀ (pyfmt : String → Option ℚ → String)
      (m : SelectMultipleMatrixQuestion) (df : List (List (Option ℚ)))
      (pct_format : String) (re : Bool) (t : MatrixTable),
      SelectMultipleMatrixQuestion.frequency_table pyfmt m df "ct" pct_format
        re true = .ok t →
      t.cols.getLast? = some "Total Respondents" ∧
      t.rows.map (fun r => r.getLast?) =
        m.questions.map (fun q => some (Cell.nat ((q.tally df true).2.1)))) := by
  refine ⟨fun q df => rfl, fun q df => rfl, ?_⟩
  intro pyfmt m df pct_format re t ht
  rcases hgc : m.get_choices re with e | cc
  · rw [show SelectMultipleMatrixQuestion.frequency_table pyfmt m df "ct"
      pct_format re true = .error e by
        simp [SelectMultipleMatrixQuestion.frequency_table, hgc]] at ht
    exact absurd ht (by simp)
  · rw [show SelectMultipleMatrixQuestion.frequency_table pyfmt m df "ct"
      pct_format re true = .ok ⟨("Question" :: cc) ++ ["Total Respondents"],
        List.zipWith (fun r (q : SelectMultipleQuestion) =>
          r ++ [Cell.nat (q.get_total_respondents df)])
          (List.zipWith (fun (q : SelectMultipleQuestion) d =>
            Cell.str q.text :: d) m.questions
            (m.questions.map (fun q =>
              (SelectMultipleQuestion.frequency_table pyfmt q df false true
                false false pct_format re false).data.getD 0 [])))
          m.questions⟩ by
        simp [SelectMultipleMatrixQuestion.frequency_table, hgc]] at ht
    cases ht
    refine ⟨List.getLast?_concat _, ?_⟩
    rw [List.zipWith_map_right, List.zipWith_same, List.zipWith_map_left,
      List.zipWith_same, List.map_map]
    refine List.map_congr_left ?_
    intro q _
    simp only [Function.comp_apply]
    rw [List.getLast?_concat]
    rfl

/-- Claim C10 witness: a one-child matrix with one respondent and one
non-respondent: the ct table carries "Total Respondents" last, holding the
child's exclusion-removed respondent count 1. -/
theorem get_total_respondents_spec_witness :
    SelectMultipleMatrixQuestion.frequency_table pyfmt0 mC10 dfC10 "ct" ""
      true true = .ok ⟨["Question", "A", "Total Respondents"],
        [[Cell.str "Row one", Cell.nat 1, Cell.nat 1]]⟩ ∧
    (⟨["Question", "A", "Total Respondents"],
        [[Cell.str "Row one", Cell.nat 1, Cell.nat 1]]⟩ : MatrixTable).rows.map
      (fun r => r.getLast?) =
      mC10.questions.map (fun q => some (Cell.nat ((q.tally dfC10 true).2.1))) :=
  ⟨by decide,
   (get_total_respondents_spec.2.2 pyfmt0 mC10 dfC10 "" true _ (by decide)).2⟩

/-- A successful `mapME` run produces one output per input. -/
theorem mapME_ok_length {f : α → Except ε β} :
    ∀ (l : List α) (ys : List β), mapME f l = .ok ys → ys.length = l.length := by
  intro l
  induction l with
  | nil =>
    intro ys h
    simp only [mapME] at h
    cases h
    rfl
  | cons a l ih =>
    intro ys h
    simp only [mapME] at h
    rcases hfa : f a with e | b <;> rw [hfa] at h
    · simp [Bind.bind, Except.bind] at h
    · rcases hrest : mapME f l with e2 | bs <;> rw [hrest] at h
      · simp [Bind.bind, Except.bind] at h
      · simp only [Bind.bind, Except.bind, pure, Except.pure] at h
        cases h
        simp [ih bs hrest]

/-- Claim C9 counterexample: cutting the spec-example question by a 2-valued
grouping variable yields 2 rows but only ONE distinct top-level row label (the
axis label repeated), not 2 as claimed. -/
theorem selectOne_cut_by_row_labels_cex :
    (SelectOneQuestion.cut_by pyfmt0 tt0 an0 qC8 gC9 glmC9 "Region" none ".0%"
      true false ".1f").map
      (fun t => ((t.rowIndex.map Prod.fst).dedup, t.rowIndex.length)) =
    .ok (["Region"], 2) := by decide

/-- Inversion for a guarded success: if the guarded branch returned `ok`,
the guard held and the returned value is the guarded one. -/
theorem ifOkInv {c : Prop} [Decidable c] {α : Type} {a : α} {e : String}
    {t : α} (h : (if c then pure a else Except.error e :
      Except String α) = .ok t) : c ∧ a = t := by
  split at h
  · exact ⟨by assumption, Except.ok.inj h⟩
  · exact Except.noConfusion h

/-- Index bookkeeping shared by the cross-tab branches: the stacked table's
top-level row labels are the axis label twice (one distinct value), and its
top-level column labels all equal the question label. -/
theorem zipIndexFacts (cvl ml : String) (rowSub colTop newcols : List String)
    (hn : rowSub.length = 2) (hguard : colTop.length = newcols.length)
    (hct : colTop = List.replicate colTop.length ml) :
    List.map Prod.fst ((List.replicate 2 cvl).zip rowSub) = [cvl, cvl] ∧
    (List.map Prod.fst ((List.replicate 2 cvl).zip rowSub)).dedup = [cvl] ∧
    List.map Prod.fst (colTop.zip newcols) =
      List.replicate (colTop.zip newcols).length ml := by
  have hr : List.map Prod.fst ((List.replicate 2 cvl).zip rowSub) = [cvl, cvl] := by
    rw [List.map_fst_zip _ _ (by simp [hn])]
    rfl
  refine ⟨hr, ?_, ?_⟩
  · rw [hr, List.dedup_cons_of_mem (by simp)]
    simp
  · rw [List.map_fst_zip _ _ (le_of_eq hguard), List.length_zip, ← hguard,
      Nat.min_self]
    exact hct

/-- Claim C9 (amended): for a question cut by a 2-valued grouping variable the
table's two top-level row labels are both the axis label (so exactly ONE
distinct top-level row label, repeated), and every top-level column label is
the question's label, spanning all choice sub-columns. -/
theorem selectOne_cut_by_hierarchical_index_spec
    (pyfmt : String → Option ℚ → String) (ttp : List ℚ → List ℚ → ℚ)
    (anp : List (List ℚ) → ℚ) (q : SelectOneQuestion)
    (groups : List (ℚ × List (Option ℚ))) (glm : List (ℚ × String))
    (cut_var_label : String) (question_label : Option String)
    (pct_format : String) (remove_exclusions show_mean : Bool)
    (mean_format : String) (t : CutTable)
    (h2 : groups.length = 2)
    (hok : SelectOneQuestion.cut_by pyfmt ttp anp q groups glm cut_var_label
      question_label pct_format remove_exclusions show_mean mean_format =
      .ok t) :
    t.rowIndex.map Prod.fst = [cut_var_label, cut_var_label] ∧
    (t.rowIndex.map Prod.fst).dedup = [cut_var_label] ∧
    t.colIndex.map Prod.fst =
      List.replicate t.colIndex.length (question_label.getD q.text) := by
  unfold SelectOneQuestion.cut_by at hok
  rcases hmf : mapME (cutBySeries pyfmt q glm pct_format remove_exclusions
      show_mean mean_format) groups with e | freqs <;> rw [hmf] at hok
  · simp [Bind.bind, Except.bind] at hok
  · simp only [Bind.bind, Except.bind] at hok
    have hlenf : freqs.length = groups.length := mapME_ok_length _ _ hmf
    have hift : ∀ {α : Type} (a b : α), (if (true : Bool) = true then a else b) = a :=
      fun _ _ => rfl
    have hiff : ∀ {α : Type} (a b : α), (if (false : Bool) = true then a else b) = b :=
      fun _ _ => rfl
    cases show_mean with
    | false =>
      simp only [Bool.false_and, hiff] at hok
      obtain ⟨hguard, hok2⟩ := ifOkInv hok
      subst hok2
      simp only [h2]
      exact zipIndexFacts cut_var_label (question_label.getD q.text) _ _ _
        (by simp [hlenf, h2]) hguard (by simp)
    | true =>
      cases hc : SelectOneQuestion.compare_groups ttp anp q groups (5 / 100) with
      | false =>
        rw [hc] at hok
        simp only [Bool.and_false, hift, hiff, if_true, if_false] at hok
        obtain ⟨hguard, hok2⟩ := ifOkInv hok
        subst hok2
        simp only [h2]
        exact zipIndexFacts cut_var_label (question_label.getD q.text) _ _ _
          (by simp [hlenf, h2]) hguard
          (by rw [show (List.replicate q.choices.length
              (question_label.getD q.text) ++
              [question_label.getD q.text]).length = q.choices.length + 1
              by simp, List.replicate_succ'])
      | true =>
        rw [hc] at hok
        simp only [Bool.and_true, hift, hiff, if_true, if_false] at hok
        obtain ⟨hguard, hok2⟩ := ifOkInv hok
        subst hok2
        simp only [h2]
        exact zipIndexFacts cut_var_label (question_label.getD q.text) _ _ _
          (by simp [hlenf, h2]) hguard
          (by rw [show (List.replicate q.choices.length
              (question_label.getD q.text) ++
              [question_label.getD q.text]).length = q.choices.length + 1
              by simp, List.replicate_succ'])

/-- Claim C9 witness: the concrete 2-group cut evaluated through the amended
theorem — both top row labels are the axis label "Region" (one distinct value)
and every top column label is the question's text. -/
theorem selectOne_cut_by_hierarchical_index_spec_witness :
    (⟨[("Region", "North"), ("Region", "South")],
      [("Yes or no?", "Yes"), ("Yes or no?", "No")],
      [[Cell.str "", Cell.str ""], [Cell.str "", Cell.str ""]]⟩ :
      CutTable).rowIndex.map Prod.fst = ["Region", "Region"] ∧
    ((⟨[("Region", "North"), ("Region", "South")],
      [("Yes or no?", "Yes"), ("Yes or no?", "No")],
      [[Cell.str "", Cell.str ""], [Cell.str "", Cell.str ""]]⟩ :
      CutTable).rowIndex.map Prod.fst).dedup = ["Region"] ∧
    (⟨[("Region", "North"), ("Region", "South")],
      [("Yes or no?", "Yes"), ("Yes or no?", "No")],
      [[Cell.str "", Cell.str ""], [Cell.str "", Cell.str ""]]⟩ :
      CutTable).colIndex.map Prod.fst =
      List.replicate (⟨[("Region", "North"), ("Region", "South")],
        [("Yes or no?", "Yes"), ("Yes or no?", "No")],
        [[Cell.str "", Cell.str ""], [Cell.str "", Cell.str ""]]⟩ :
        CutTable).colIndex.length ((none : Option String).getD qC8.text) :=
  selectOne_cut_by_hierarchical_index_spec pyfmt0 tt0 an0 qC8 gC9 glmC9
    "Region" none ".0%" true false ".1f" _ (by decide) (by decide)

/-- Mapping over a list is mapping its indexed reads over the index range. -/
theorem map_eq_range_getD (l : List α) (f : α → β) (d : α) :
    l.map f = (List.range l.length).map (fun i => f (l.getD i d)) := by
  apply List.ext_getElem
  · simp
  · intro i h1 h2
    simp only [List.getElem_map, List.getElem_range]
    rw [List.getD_eq_getElem]

/-- Zipping a list with its index range is mapping the indexed reads. -/
theorem zipWith_range (l : List α) (f : α → ℕ → β) (d : α) :
    List.zipWith f l (List.range l.length) =
      (List.range l.length).map (fun i => f (l.getD i d) i) := by
  apply List.ext_getElem
  · simp
  · intro i h1 h2
    simp only [List.getElem_zipWith, List.getElem_map, List.getElem_range]
    rw [List.getD_eq_getElem]

/-- `zip(*rows)` on nonempty, equal-length rows: entry `i` of the transpose
reads entry `i` of every row. -/
theorem zipStar_eq_range (d : α) :
    ∀ (ls : List (List α)) (n : ℕ), ls ≠ [] → (∀ l ∈ ls, l.length = n) →
      zipStar ls = (List.range n).map (fun i => ls.map (fun l => l.getD i d)) := by
  intro ls
  induction ls with
  | nil => intro n h _; exact absurd rfl h
  | cons l ls ih =>
    intro n hne hlen
    cases ls with
    | nil =>
      have hl : l.length = n := hlen l (by simp)
      rw [show zipStar [l] = l.map (fun a => [a]) from rfl, ← hl,
        map_eq_range_getD l (fun a => [a]) d]
      rfl
    | cons l2 ls2 =>
      have hl : l.length = n := hlen l (by simp)
      rw [show zipStar (l :: l2 :: ls2) =
        List.zipWith (fun a r => a :: r) l (zipStar (l2 :: ls2)) from rfl]
      rw [ih n (by simp) (fun x hx => hlen x (by simp [hx]))]
      rw [List.zipWith_map_right, ← hl,
        zipWith_range l (fun a i => a :: (l2 :: ls2).map (fun l3 => l3.getD i d)) d]
      rfl

/-- The count list of a multi-answer tally has one entry per retained
variable, provided the rows cover all of the question's variables. -/
theorem tally_counts_length (q : SelectMultipleQuestion)
    (df : List (List (Option ℚ))) (re : Bool)
    (hr : ∀ r ∈ df, r.length = q.vars.length) :
    (q.tally df re).1.length =
      (if re then listCompress q.vars (q.exclude_from_analysis.map not)
       else q.vars).length := by
  cases re with
  | false =>
    have hif : ∀ {α : Type} (a b : α), (if (false : Bool) = true then a else b) = b :=
      fun _ _ => rfl
    simp only [hif]
    have hlen : ∀ r ∈ df, r.length = (List.replicate q.vars.length 0).length := by
      simpa using hr
    simpa [SelectMultipleQuestion.tally] using tallyLoop_length df _ hlen
  | true =>
    simp only [if_pos rfl]
    have hlen : ∀ r ∈ df.map (fun r =>
        listCompress r (q.exclude_from_analysis.map not)),
        r.length = (List.replicate
          (listCompress q.vars (q.exclude_from_analysis.map not)).length
          0).length := by
      simp only [List.mem_map, List.length_replicate]
      rintro _ ⟨r, hrm, rfl⟩
      exact listCompress_length_congr _ r q.vars (hr r hrm)
    simpa [SelectMultipleQuestion.tally] using tallyLoop_length _ _ hlen

/-- Claim C5: the multi-answer group comparison returns one boolean per
retained choice, whatever the number of groups: entry i is true iff the
chi-square goodness-of-fit p-value on the observed per-group counts of choice
i against expected counts (the overall proportion of choice i across all
groups, times each group's respondent count) is strictly below pval.
The hypotheses are the loader's input contract (as many choices as variables,
rows covering all variables) and a positive overall respondent count (Python
divides by it and raises ZeroDivisionError otherwise). -/
theorem selectMultiple_compare_groups_spec
    (chisqp : List ℕ → List ℚ → ℚ) (q : SelectMultipleQuestion)
    (groupby : List (ℚ × List (List (Option ℚ)))) (re : Bool) (pval : ℚ)
    (hC : q.choices.length = q.vars.length)
    (hrows : ∀ g ∈ groupby, ∀ r ∈ g.2, r.length = q.vars.length)
    (hpos : 0 < (groupby.map (fun g => (q.tally g.2 re).2.1)).sum) :
    SelectMultipleQuestion.compare_groups chisqp q groupby re pval =
      (List.range (q.get_choices re).length).map (fun i =>
        decide (chisqp
          (groupby.map (fun g => (q.tally g.2 re).1.getD i 0))
          (groupby.map (fun g =>
            (((groupby.map (fun g2 => (q.tally g2.2 re).1.getD i 0)).sum : ℚ) /
              ((groupby.map (fun g2 => (q.tally g2.2 re).2.1)).sum : ℚ)) *
            ((q.tally g.2 re).2.1 : ℚ))) < pval)) := by
  have hne : groupby ≠ [] := by
    intro h
    rw [h] at hpos
    simp at hpos
  have hobs : ∀ l ∈ (groupby.map (fun g => q.tally g.2 re)).map (fun t => t.1),
      l.length = (if re then
        listCompress q.vars (q.exclude_from_analysis.map not)
        else q.vars).length := by
    simp only [List.map_map, List.mem_map]
    rintro _ ⟨g, hg, rfl⟩
    exact tally_counts_length q g.2 re (hrows g hg)
  have hzs : zipStar ((groupby.map (fun g => q.tally g.2 re)).map (fun t => t.1)) =
      (List.range (if re then
          listCompress q.vars (q.exclude_from_analysis.map not)
          else q.vars).length).map (fun i =>
        ((groupby.map (fun g => q.tally g.2 re)).map (fun t => t.1)).map
          (fun l => l.getD i 0)) :=
    zipStar_eq_range 0 _ _ (by simp [hne]) hobs
  have hgc : (q.get_choices re).length = (if re then
      listCompress q.vars (q.exclude_from_analysis.map not)
      else q.vars).length := by
    cases re with
    | false => simpa [SelectMultipleQuestion.get_choices] using hC
    | true =>
      simp only [SelectMultipleQuestion.get_choices, if_pos rfl]
      exact listCompress_length_congr _ _ _ hC
  rw [hgc]
  simp only [SelectMultipleQuestion.compare_groups]
  rw [hzs]
  simp only [List.map_map]
  rw [List.zip_map']
  rw [List.map_map]
  refine List.map_congr_left ?_
  intro i _
  simp [List.map_map, Function.comp_def]

/-- Claim C5 witness: the 2-choice, 2-group fixture evaluated through the
theorem; the loader contract and positive respondent total hold by
computation. -/
theorem selectMultiple_compare_groups_spec_witness :
    SelectMultipleQuestion.compare_groups chisq0 qC5 gC5 true 1 =
      (List.range (qC5.get_choices true).length).map (fun i =>
        decide (chisq0
          (gC5.map (fun g => (qC5.tally g.2 true).1.getD i 0))
          (gC5.map (fun g =>
            (((gC5.map (fun g2 => (qC5.tally g2.2 true).1.getD i 0)).sum : ℚ) /
              ((gC5.map (fun g2 => (qC5.tally g2.2 true).2.1)).sum : ℚ)) *
            ((qC5.tally g.2 true).2.1 : ℚ))) < 1)) :=
  selectMultiple_compare_groups_spec chisq0 qC5 gC5 true 1 (by decide)
    (by decide) (by decide)
